import Mathlib

/-!
Shallow embedding of `src/app.py`: a Flask HTTP facade over a partitioned
document store (Cosmos DB) and a secret store (Key Vault).

Modelling conventions:
* JSON values are the inductive `JValue`; a parsed JSON object body is an
  association list `Doc`.
* The process globals `cosmos_client`, `database`, `container`,
  `keyvault_client` become the fields of `AppState`.  A handle that is
  `None` in Python is `none` / `false` here; a ready document handle
  carries the contents of the backend container (`Option DocStore`), and a
  ready secret handle carries the contents of the vault (`Option SecretStore`).
* Each Flask route handler becomes a total Lean function from the state
  (plus the path / query / body data of the request) to an HTTP `Response`;
  handlers that write to the backend also return the updated state.
* Backend errors the handlers catch (CosmosResourceNotFoundError,
  CosmosResourceExistsError, generic secret-store failures) are modelled
  by the corresponding branch of the backend operation on the stored
  contents, exactly mirroring the except-clauses of the source.
* Secret timestamps (`created_on` / `updated_on`) are modelled as
  `Option String`, the string being the ISO
  rendering of the external datetime object; `.isoformat() if ts else None` becomes `renderTimestamp`.
-/

namespace ACAApp

/-- JSON values, as produced by the Flask `jsonify` / `request.get_json()` helpers. -/
inductive JValue where
  | null
  | bool (b : Bool)
  | str (s : String)
  | num (n : Int)
  | arr (xs : List JValue)
  | obj (fields : List (String × JValue))
deriving Repr

mutual

/-- Structural equality test on JSON values (Python `==` on parsed JSON). -/
def JValue.beq : JValue → JValue → Bool
  | .null, .null => true
  | .bool a, .bool b => a == b
  | .str a, .str b => a == b
  | .num a, .num b => a == b
  | .arr xs, .arr ys => beqList xs ys
  | .obj xs, .obj ys => beqFields xs ys
  | _, _ => false

def beqList : List JValue → List JValue → Bool
  | [], [] => true
  | x :: xs, y :: ys => JValue.beq x y && beqList xs ys
  | _, _ => false

def beqFields : List (String × JValue) → List (String × JValue) → Bool
  | [], [] => true
  | p :: xs, q :: ys => p.1 == q.1 && JValue.beq p.2 q.2 && beqFields xs ys
  | _, _ => false

end

instance : BEq JValue := ⟨JValue.beq⟩

/-- A parsed JSON object (Python dict): association list of fields. -/
abbrev Doc := List (String × JValue)

/-- Python `data[k]` / `k in data`: first binding of key `k`, if any. -/
def docGet (d : Doc) (k : String) : Option JValue :=
  (d.find? (fun p => p.1 == k)).map (fun p => p.2)

/-- Python `data[k] = v`: replace the binding of `k` in place if present,
otherwise append it. -/
def docSet (d : Doc) (k : String) (v : JValue) : Doc :=
  if d.any (fun p => p.1 == k) then
    d.map (fun p => if p.1 == k then (k, v) else p)
  else d ++ [(k, v)]

/-- Contents of the backend document container: the stored items. -/
abbrev DocStore := List Doc

/-- A secret held by the vault.  `value` is the payload; `created_on` and
`updated_on` are the ISO renderings of the backend timestamps, `none` if
never set. -/
structure Secret where
  name : String
  value : JValue
  enabled : Bool
  created_on : Option String
  updated_on : Option String
deriving Repr

/-- Contents of the backend key vault. -/
abbrev SecretStore := List Secret

/-- The module-level globals of `app.py`.  `cosmos_client`, `database`
record whether those handles are non-`None`; `container` and
`keyvault_client` additionally carry the backend contents when ready. -/
structure AppState where
  cosmos_client : Bool
  database : Bool
  container : Option DocStore
  keyvault_client : Option SecretStore
deriving Repr

/-- The globals before any initializer has run: everything `None`. -/
def freshState : AppState := ⟨false, false, none, none⟩

/-- An HTTP response: status code plus JSON body. -/
structure Response where
  status : Nat
  body : JValue
deriving Repr

/-- Look a key up in the JSON object body of a response. -/
def Response.field (r : Response) (k : String) : Option JValue :=
  match r.body with
  | .obj d => docGet d k
  | _ => none

/-- The JSON error body the handlers build from a message. -/
def errBody (msg : String) : JValue := .obj [("error", .str msg)]

/-- Python truthiness of an optional query-parameter string
(`not category` is true for `None` and for `""`). -/
def strFalsy : Option String → Bool
  | none => true
  | some s => s.isEmpty

/-- Duplicate test of the Cosmos backend on a strict create: some stored
item has the same `id` field and the same `category` (partition key)
field as the incoming body. -/
def conflictWith (docs : DocStore) (data : Doc) : Bool :=
  docs.any (fun d =>
    docGet d "id" == docGet data "id" && docGet d "category" == docGet data "category")

/-- Point-lookup predicate of `read_item(item=item_id, partition_key=c)`:
the `id` and `category` fields of the stored item equal the given strings. -/
def strKeyMatches (d : Doc) (item_id c : String) : Bool :=
  docGet d "id" == some (.str item_id) && docGet d "category" == some (.str c)

/-- Backend `upsert_item(body=data)`: replace the item with the same
(id, category) key if one exists, otherwise insert. -/
def upsertDoc (docs : DocStore) (data : Doc) : DocStore :=
  if conflictWith docs data then
    docs.map (fun d =>
      if docGet d "id" == docGet data "id" && docGet d "category" == docGet data "category"
      then data else d)
  else docs ++ [data]

/-- Handler of `GET /health` (`health_check`). -/
def health_check (st : AppState) : Response :=
  ⟨200, .obj [("status", .str "healthy"),
              ("cosmos_connected", .bool st.cosmos_client),
              ("keyvault_connected", .bool st.keyvault_client.isSome)]⟩

/-- Handler of `GET /items` (`get_items`). -/
def get_items (st : AppState) : Response :=
  match st.container with
  | none => ⟨500, errBody "Cosmos DB not initialized"⟩
  | some docs =>
      ⟨200, .obj [("count", .num (docs.length : Int)),
                  ("items", .arr (docs.map JValue.obj))]⟩

/-- Handler of `GET /items/<item_id>` (`get_item`); `category` is the optional
`?category=` query parameter. -/
def get_item (st : AppState) (item_id : String) (category : Option String) : Response :=
  match st.container with
  | none => ⟨500, errBody "Cosmos DB not initialized"⟩
  | some docs =>
      if strFalsy category then ⟨400, errBody "category query parameter is required"⟩
      else
        match category with
        | none => ⟨400, errBody "category query parameter is required"⟩
        | some c =>
            match docs.find? (fun d => strKeyMatches d item_id c) with
            | none => ⟨404, errBody "Item not found"⟩
            | some d => ⟨200, .obj d⟩

/-- Handler of `POST /items` (`create_item`); `body` is `request.get_json()`
(`none` when no JSON body was sent). -/
def create_item (st : AppState) (body : Option Doc) : Response × AppState :=
  match st.container with
  | none => (⟨500, errBody "Cosmos DB not initialized"⟩, st)
  | some docs =>
      match body with
      | none => (⟨400, errBody "Request body is required"⟩, st)
      | some data =>
          if data.isEmpty then (⟨400, errBody "Request body is required"⟩, st)
          else if (docGet data "id").isNone || (docGet data "category").isNone then
            (⟨400, errBody "id and category fields are required"⟩, st)
          else if conflictWith docs data then
            (⟨409, errBody "Item already exists"⟩, st)
          else
            (⟨201, .obj data⟩, { st with container := some (docs ++ [data]) })

/-- Handler of `PUT /items/<item_id>` (`update_item`). -/
def update_item (st : AppState) (item_id : String) (body : Option Doc) :
    Response × AppState :=
  match st.container with
  | none => (⟨500, errBody "Cosmos DB not initialized"⟩, st)
  | some docs =>
      match body with
      | none => (⟨400, errBody "Request body is required"⟩, st)
      | some data =>
          if data.isEmpty then (⟨400, errBody "Request body is required"⟩, st)
          else if (docGet data "category").isNone then
            (⟨400, errBody "category field is required"⟩, st)
          else
            let data2 := docSet data "id" (.str item_id)
            (⟨200, .obj data2⟩, { st with container := some (upsertDoc docs data2) })

/-- Handler of `DELETE /items/<item_id>` (`delete_item`). -/
def delete_item (st : AppState) (item_id : String) (category : Option String) :
    Response × AppState :=
  match st.container with
  | none => (⟨500, errBody "Cosmos DB not initialized"⟩, st)
  | some docs =>
      if strFalsy category then (⟨400, errBody "category query parameter is required"⟩, st)
      else
        match category with
        | none => (⟨400, errBody "category query parameter is required"⟩, st)
        | some c =>
            if docs.any (fun d => strKeyMatches d item_id c) then
              (⟨200, .obj [("message", .str "Item deleted successfully")]⟩,
               { st with container := some (docs.filter (fun d => !(strKeyMatches d item_id c))) })
            else (⟨404, errBody "Item not found"⟩, st)

/-- One entry of the `GET /secrets` listing: name and enabled flag only. -/
def secretListEntry (s : Secret) : JValue :=
  .obj [("name", .str s.name), ("enabled", .bool s.enabled)]

/-- Handler of `GET /secrets` (`list_secrets`). -/
def list_secrets (st : AppState) : Response :=
  match st.keyvault_client with
  | none => ⟨500, errBody "Key Vault not initialized"⟩
  | some kv =>
      ⟨200, .obj [("count", .num (kv.length : Int)),
                  ("secrets", .arr (kv.map secretListEntry))]⟩

/-- Rendering `ts.isoformat() if ts else None` of an optional timestamp. -/
def renderTimestamp : Option String → JValue
  | none => .null
  | some t => .str t

/-- Stringified message of the not-found error of the secret store, as
surfaced by `str(e)` in the generic except-clause of the handler. -/
def secretNotFoundMessage (name : String) : String :=
  "(SecretNotFound) A secret with name " ++ name ++ " was not found in this key vault."

/-- Backend `keyvault_client.get_secret(name)`: the secret, or a raised
error (carried as its stringified message) when the name is absent. -/
def kvGetSecret (kv : SecretStore) (name : String) : Except String Secret :=
  match kv.find? (fun s => s.name == name) with
  | some s => Except.ok s
  | none => Except.error (secretNotFoundMessage name)

/-- Handler of `GET /secrets/<secret_name>` (`get_secret`). -/
def get_secret (st : AppState) (name : String) : Response :=
  match st.keyvault_client with
  | none => ⟨500, errBody "Key Vault not initialized"⟩
  | some kv =>
      match kvGetSecret kv name with
      | Except.error msg => ⟨500, errBody msg⟩
      | Except.ok s =>
          ⟨200, .obj [("name", .str s.name),
                      ("value", s.value),
                      ("enabled", .bool s.enabled),
                      ("created_on", renderTimestamp s.created_on),
                      ("updated_on", renderTimestamp s.updated_on)]⟩

/-- Backend `keyvault_client.set_secret(name, value)`: wholesale
create-or-replace; `now` is the ISO rendering of the backend write
timestamp. -/
def kvSetSecret (kv : SecretStore) (name : String) (v : JValue) (now : String) :
    SecretStore × Secret :=
  let s : Secret := ⟨name, v, true, some now, some now⟩
  (kv.filter (fun t => !(t.name == name)) ++ [s], s)

/-- Handler of `POST /secrets/<secret_name>` (`set_secret`). -/
def set_secret (st : AppState) (name : String) (body : Option Doc) (now : String) :
    Response × AppState :=
  match st.keyvault_client with
  | none => (⟨500, errBody "Key Vault not initialized"⟩, st)
  | some kv =>
      match body with
      | none => (⟨400, errBody "Request body must contain \x27value\x27 field"⟩, st)
      | some data =>
          if data.isEmpty then
            (⟨400, errBody "Request body must contain \x27value\x27 field"⟩, st)
          else
            match docGet data "value" with
            | none => (⟨400, errBody "Request body must contain \x27value\x27 field"⟩, st)
            | some v =>
                let p := kvSetSecret kv name v now
                (⟨201, .obj [("name", .str p.2.name),
                             ("message", .str "Secret created/updated successfully"),
                             ("created_on", renderTimestamp p.2.created_on)]⟩,
                 { st with keyvault_client := some p.1 })

/-- A container in the Cosmos account: id, the partition-key path and
throughput it was created with, and its stored items. -/
structure CosmosContainerRec where
  id : String
  partitionKeyPath : String
  offerThroughput : Nat
  docs : DocStore
deriving Repr

/-- A logical database in the Cosmos account. -/
structure CosmosDatabaseRec where
  id : String
  containers : List CosmosContainerRec
deriving Repr

/-- Resource state of the backend Cosmos account. -/
structure CosmosAccount where
  databases : List CosmosDatabaseRec
deriving Repr

/-- Which backend calls of the initializer succeed on a given run
(`false` = the call raises). -/
structure CosmosBehavior where
  clientOk : Bool
  createDatabaseOk : Bool
  createContainerOk : Bool
deriving Repr

/-- Backend `create_database_if_not_exists(id=dbId)`: no-op when the
database already exists, otherwise add it empty. -/
def createDatabaseIfNotExists (acct : CosmosAccount) (dbId : String) : CosmosAccount :=
  if acct.databases.any (fun d => d.id == dbId) then acct
  else ⟨acct.databases ++ [⟨dbId, []⟩]⟩

/-- Locate a container by database id and container id. -/
def findContainer (acct : CosmosAccount) (dbId contId : String) :
    Option CosmosContainerRec :=
  match acct.databases.find? (fun d => d.id == dbId) with
  | none => none
  | some db => db.containers.find? (fun c => c.id == contId)

/-- Backend `create_container_if_not_exists(id, partition_key, offer_throughput)`:
return the existing container unchanged when present, otherwise create it
with the declared partition-key path and throughput. -/
def createContainerIfNotExists (acct : CosmosAccount) (dbId contId pkPath : String)
    (thr : Nat) : CosmosAccount × CosmosContainerRec :=
  match findContainer acct dbId contId with
  | some c => (acct, c)
  | none =>
      let newC : CosmosContainerRec := ⟨contId, pkPath, thr, []⟩
      (⟨acct.databases.map (fun d =>
          if d.id == dbId then ⟨d.id, d.containers ++ [newC]⟩ else d)⟩, newC)

/-- Model of `initialize_cosmos_client` of `app.py` (named in the spec
`initializeDocumentClient`).  The whole body sits in a try/except that
returns `False`, so the model is a total function: it never raises.
Globals are assigned in order (`cosmos_client`, then `database`, then
`container`); a step that raises leaves the later globals untouched and
returns failure.  `endpoint` is `COSMOS_ENDPOINT` (falsy when unset or
empty), `dbName`/`contName` are the configured database and container
names. -/
def init_cosmos_client (endpoint : Option String) (dbName contName : String)
    (beh : CosmosBehavior) (acct : CosmosAccount) (st : AppState) :
    AppState × CosmosAccount × Bool :=
  if strFalsy endpoint then (st, acct, false)
  else if !beh.clientOk then (st, acct, false)
  else
    let st1 := { st with cosmos_client := true }
    if !beh.createDatabaseOk then (st1, acct, false)
    else
      let acct1 := createDatabaseIfNotExists acct dbName
      let st2 := { st1 with database := true }
      if !beh.createContainerOk then (st2, acct1, false)
      else
        let p := createContainerIfNotExists acct1 dbName contName "/category" 400
        ({ st2 with container := some p.2.docs }, p.1, true)

/-- Model of `initialize_keyvault_client` of `app.py`: binds the secret handle to
the vault (with contents `kv`) when `KEY_VAULT_URL` is set and the client
constructor succeeds; otherwise returns failure leaving the handle
untouched. -/
def init_keyvault_client (vaultUrl : Option String) (clientOk : Bool)
    (kv : SecretStore) (st : AppState) : AppState × Bool :=
  if strFalsy vaultUrl then (st, false)
  else if !clientOk then (st, false)
  else ({ st with keyvault_client := some kv }, true)

/-- The module-level states reachable at the end of import time: both
initializers have run once, in order, from the fresh globals, under some
configuration and backend behavior. -/
def ReachableAfterInit (st : AppState) : Prop :=
  ∃ ep dbName contName beh acct vaultUrl kvOk kv,
    st = (init_keyvault_client vaultUrl kvOk kv
           (init_cosmos_client ep dbName contName beh acct freshState).1).1

/-- A sample stored item used to instantiate theorems at concrete inputs. -/
def demoDoc : Doc := [("id", .str "a"), ("category", .str "c")]

/-- A second sample item sharing the (id, category) key of `demoDoc`. -/
def demoDoc2 : Doc := [("id", .str "a"), ("category", .str "c"), ("qty", .num 3)]

/-- A sample secret used to instantiate theorems at concrete inputs. -/
def demoSecret : Secret := ⟨"s1", .str "v1", true, some "2024-01-01T00:00:00+00:00", none⟩

/-- A sample ready state: both handles bound, one item, one secret. -/
def demoState : AppState := ⟨true, true, some [demoDoc], some [demoSecret]⟩

/-- A sample ready state whose container holds no items yet. -/
def demoEmptyState : AppState := ⟨true, true, some [], some [demoSecret]⟩

/-- Variant of `demoSecret` with a different value, everything else equal. -/
def demoSecret2 : Secret := ⟨"s1", .str "changed", true, some "2024-01-01T00:00:00+00:00", none⟩

/-- A ready state identical to `demoState` except for the value of the secret. -/
def demoState2 : AppState := ⟨true, true, some [demoDoc], some [demoSecret2]⟩

/-- Two vault states that differ at most in the secret values:
pointwise equal names, enabled flags and timestamps. -/
def SameButValues (kv kv2 : SecretStore) : Prop :=
  List.Forall₂ (fun s t => s.name = t.name ∧ s.enabled = t.enabled ∧
    s.created_on = t.created_on ∧ s.updated_on = t.updated_on) kv kv2

/-- The globals after an import-time run in which `CosmosClient(...)`
succeeded but `create_database_if_not_exists` raised (and no vault was
configured): the Cosmos client handle is set, the container handle is
not. -/
def partialInitState : AppState :=
  (init_keyvault_client none true []
    (init_cosmos_client (some "https://cosmos.example") "SampleDB" "Items"
      ⟨true, false, false⟩ ⟨[]⟩ freshState).1).1

/-- The globals after a fully successful import-time initialization. -/
def fullInitState : AppState :=
  (init_keyvault_client (some "https://vault.example") true [demoSecret]
    (init_cosmos_client (some "https://cosmos.example") "SampleDB" "Items"
      ⟨true, true, true⟩ ⟨[]⟩ freshState).1).1

/-! ## General lemmas -/

mutual

theorem JValue.beq_refl : ∀ v : JValue, JValue.beq v v = true
  | .null => rfl
  | .bool b => by simp [JValue.beq]
  | .str s => by simp [JValue.beq]
  | .num n => by simp [JValue.beq]
  | .arr xs => by simp only [JValue.beq]; exact beqList_refl xs
  | .obj xs => by simp only [JValue.beq]; exact beqFields_refl xs

theorem beqList_refl : ∀ xs : List JValue, beqList xs xs = true
  | [] => rfl
  | x :: xs => by
      simp only [beqList, Bool.and_eq_true]
      exact ⟨JValue.beq_refl x, beqList_refl xs⟩

theorem beqFields_refl : ∀ xs : List (String × JValue), beqFields xs xs = true
  | [] => rfl
  | p :: xs => by
      simp only [beqFields, Bool.and_eq_true]
      exact ⟨⟨by simp, JValue.beq_refl p.2⟩, beqFields_refl xs⟩

end

theorem optBeq_refl (o : Option JValue) : (o == o) = true := by
  cases o with
  | none => rfl
  | some v => exact JValue.beq_refl v

theorem filter_not_any {α : Type} (l : List α) (p : α → Bool) :
    (l.filter (fun a => !(p a))).any p = false := by
  rw [List.any_eq_false]
  intro a ha
  have h := List.mem_filter.mp ha
  simpa using h.2

theorem create_item_ready {st : AppState} {docs : DocStore} (h : st.container = some docs)
    (data : Doc) :
    create_item st (some data) =
      if data.isEmpty then (⟨400, errBody "Request body is required"⟩, st)
      else if (docGet data "id").isNone || (docGet data "category").isNone then
        (⟨400, errBody "id and category fields are required"⟩, st)
      else if conflictWith docs data then (⟨409, errBody "Item already exists"⟩, st)
      else (⟨201, .obj data⟩, { st with container := some (docs ++ [data]) }) := by
  simp [create_item, h]

theorem docGet_map_set (d : Doc) (k : String) (v : JValue)
    (hany : d.any (fun p => p.1 == k) = true) :
    docGet (d.map (fun p => if p.1 == k then (k, v) else p)) k = some v := by
  induction d with
  | nil => simp at hany
  | cons p rest ih =>
      rw [List.map_cons]
      by_cases hp : (p.1 == k) = true
      · rw [if_pos hp]
        unfold docGet
        rw [List.find?_cons_of_pos _ (by simp)]
        rfl
      · rw [if_neg hp]
        have hrest : rest.any (fun q => q.1 == k) = true := by
          rw [List.any_cons] at hany
          simpa [hp] using hany
        unfold docGet
        rw [List.find?_cons_of_neg _ (by simpa using hp)]
        exact ih hrest

/-- After `data[k] = v`, looking up `k` yields `v`. -/
theorem docGet_docSet_self (d : Doc) (k : String) (v : JValue) :
    docGet (docSet d k v) k = some v := by
  unfold docSet
  by_cases hany : d.any (fun p => p.1 == k) = true
  · rw [if_pos hany]
    exact docGet_map_set d k v hany
  · rw [if_neg hany]
    have : d.find? (fun p => p.1 == k) = none := by
      rw [List.find?_eq_none]
      intro p hp
      intro hc
      exact hany (List.any_eq_true.mpr ⟨p, hp, hc⟩)
    simp [docGet, List.find?_append, this]

/-- The upserted document is in the store after the upsert. -/
theorem mem_upsertDoc (docs : DocStore) (data : Doc) : data ∈ upsertDoc docs data := by
  unfold upsertDoc
  by_cases hc : conflictWith docs data = true
  · rw [if_pos hc]
    unfold conflictWith at hc
    rcases List.any_eq_true.mp hc with ⟨d, hd, hcond⟩
    exact List.mem_map.mpr ⟨d, hd, by simp [hcond]⟩
  · rw [if_neg hc]
    exact List.mem_append_right _ (List.mem_singleton.mpr rfl)

/-! ## Claims -/

/-- C1: every document-store operation (list, get, create, update,
delete) with the document handle not ready, and every secret-store
operation (list, get, set) with the secret handle not ready, returns
status 500 with the JSON error body, leaves the state unchanged (no
backend call, no partial result), regardless of path, query and body —
so the readiness check precedes all parameter and body validation
(e.g. `get_item` with `category = none` still yields 500, not 400). -/
theorem C1_unready_short_circuit (st : AppState) (item_id name : String)
    (category : Option String) (body : Option Doc) (now : String) :
    (st.container = none →
      get_items st = ⟨500, errBody "Cosmos DB not initialized"⟩ ∧
      get_item st item_id category = ⟨500, errBody "Cosmos DB not initialized"⟩ ∧
      create_item st body = (⟨500, errBody "Cosmos DB not initialized"⟩, st) ∧
      update_item st item_id body = (⟨500, errBody "Cosmos DB not initialized"⟩, st) ∧
      delete_item st item_id category = (⟨500, errBody "Cosmos DB not initialized"⟩, st)) ∧
    (st.keyvault_client = none →
      list_secrets st = ⟨500, errBody "Key Vault not initialized"⟩ ∧
      get_secret st name = ⟨500, errBody "Key Vault not initialized"⟩ ∧
      set_secret st name body now = (⟨500, errBody "Key Vault not initialized"⟩, st)) := by
  constructor
  · intro h
    refine ⟨?_, ?_, ?_, ?_, ?_⟩ <;>
      simp [get_items, get_item, create_item, update_item, delete_item, h]
  · intro h
    refine ⟨?_, ?_, ?_⟩ <;> simp [list_secrets, get_secret, set_secret, h]

/-- Witness for C1 at the fresh state (both handles absent), with a
missing category and no body. -/
theorem C1_witness :
    freshState.container = none ∧ freshState.keyvault_client = none ∧
    get_item freshState "a" none = ⟨500, errBody "Cosmos DB not initialized"⟩ ∧
    get_secret freshState "mysecret" = ⟨500, errBody "Key Vault not initialized"⟩ :=
  ⟨rfl, rfl,
   ((C1_unready_short_circuit freshState "a" "mysecret" none none "t").1 rfl).2.1,
   ((C1_unready_short_circuit freshState "a" "mysecret" none none "t").2 rfl).2.1⟩

/-- C10: in every successful (200) response of `GET /items` and of
`GET /secrets`, the `count` field equals the number of elements of the
returned `items` (respectively `secrets`) array. -/
theorem C10_count_matches_length (st : AppState) (docs : DocStore) (kv : SecretStore) :
    (st.container = some docs →
      (get_items st).status = 200 ∧
      ∃ l, (get_items st).field "items" = some (.arr l) ∧
           (get_items st).field "count" = some (.num (l.length : Int))) ∧
    (st.keyvault_client = some kv →
      (list_secrets st).status = 200 ∧
      ∃ l, (list_secrets st).field "secrets" = some (.arr l) ∧
           (list_secrets st).field "count" = some (.num (l.length : Int))) := by
  constructor
  · intro h
    have hg : get_items st
        = ⟨200, .obj [("count", .num (docs.length : Int)),
                      ("items", .arr (docs.map JValue.obj))]⟩ := by
      simp [get_items, h]
    refine ⟨by rw [hg], docs.map JValue.obj, by rw [hg]; rfl, ?_⟩
    rw [hg]
    show some (JValue.num (docs.length : Int))
        = some (.num ((docs.map JValue.obj).length : Int))
    rw [List.length_map]
  · intro h
    have hg : list_secrets st
        = ⟨200, .obj [("count", .num (kv.length : Int)),
                      ("secrets", .arr (kv.map secretListEntry))]⟩ := by
      simp [list_secrets, h]
    refine ⟨by rw [hg], kv.map secretListEntry, by rw [hg]; rfl, ?_⟩
    rw [hg]
    show some (JValue.num (kv.length : Int))
        = some (.num ((kv.map secretListEntry).length : Int))
    rw [List.length_map]

/-- Witness for C10 at a concrete ready state holding one item and one
secret. -/
theorem C10_witness :
    demoState.container = some [demoDoc] ∧ demoState.keyvault_client = some [demoSecret] ∧
    ((get_items demoState).status = 200 ∧
     ∃ l, (get_items demoState).field "items" = some (.arr l) ∧
          (get_items demoState).field "count" = some (.num (l.length : Int))) ∧
    ((list_secrets demoState).status = 200 ∧
     ∃ l, (list_secrets demoState).field "secrets" = some (.arr l) ∧
          (list_secrets demoState).field "count" = some (.num (l.length : Int))) :=
  ⟨rfl, rfl,
   (C10_count_matches_length demoState [demoDoc] [demoSecret]).1 rfl,
   (C10_count_matches_length demoState [demoDoc] [demoSecret]).2 rfl⟩

/-- C3: with the document handle ready, `POST /items` returns 400 with
the state untouched when the body is absent, empty, or lacks `id` or
`category`; returns 409 with the state untouched (no overwrite) when an
item with the same (id, category) exists; otherwise performs a strict
create, returning 201 with the created item and appending it to the
store — and a second create with the same (id, category) then yields
409 and changes nothing. -/
theorem C3_create_semantics (st : AppState) (docs : DocStore) (data data2 : Doc)
    (h : st.container = some docs) :
    create_item st none = (⟨400, errBody "Request body is required"⟩, st) ∧
    create_item st (some []) = (⟨400, errBody "Request body is required"⟩, st) ∧
    (data.isEmpty = false →
      ((docGet data "id").isNone ∨ (docGet data "category").isNone) →
      create_item st (some data) = (⟨400, errBody "id and category fields are required"⟩, st)) ∧
    (data.isEmpty = false → (docGet data "id").isSome → (docGet data "category").isSome →
      conflictWith docs data = true →
      create_item st (some data) = (⟨409, errBody "Item already exists"⟩, st)) ∧
    (data.isEmpty = false → (docGet data "id").isSome → (docGet data "category").isSome →
      conflictWith docs data = false →
      create_item st (some data)
        = (⟨201, .obj data⟩, { st with container := some (docs ++ [data]) }) ∧
      (data2.isEmpty = false → docGet data2 "id" = docGet data "id" →
        docGet data2 "category" = docGet data "category" →
        create_item { st with container := some (docs ++ [data]) } (some data2)
          = (⟨409, errBody "Item already exists"⟩,
             { st with container := some (docs ++ [data]) }))) := by
  refine ⟨by simp [create_item, h], by simp [create_item, h], ?_, ?_, ?_⟩
  · intro hne hmiss
    rcases hmiss with hm | hm <;> simp [create_item_ready h, hne, hm]
  · intro hne hid hcat hconf
    rcases Option.isSome_iff_exists.mp hid with ⟨vi, hvi⟩
    rcases Option.isSome_iff_exists.mp hcat with ⟨vc, hvc⟩
    simp [create_item_ready h, hne, hvi, hvc, hconf]
  · intro hne hid hcat hconf
    rcases Option.isSome_iff_exists.mp hid with ⟨vi, hvi⟩
    rcases Option.isSome_iff_exists.mp hcat with ⟨vc, hvc⟩
    refine ⟨by simp [create_item_ready h, hne, hvi, hvc, hconf], ?_⟩
    intro hne2 hid2 hcat2
    have h2 : ({ st with container := some (docs ++ [data]) } : AppState).container
        = some (docs ++ [data]) := rfl
    have hconf2 : conflictWith (docs ++ [data]) data2 = true := by
      have hdata : (docGet data "id" == docGet data2 "id"
          && docGet data "category" == docGet data2 "category") = true := by
        rw [hid2, hcat2, optBeq_refl, optBeq_refl]
        rfl
      unfold conflictWith
      rw [List.any_append]
      simp [List.any_cons, hdata]
    simp [create_item_ready h2, hne2, hid2, hcat2, hvi, hvc, hconf2]

/-- Witness for C3: first create of `demoDoc` into an empty store yields
201, then creating `demoDoc2` (same id and category) yields 409 without
changing the store. -/
theorem C3_witness :
    demoEmptyState.container = some [] ∧
    demoDoc.isEmpty = false ∧
    (docGet demoDoc "id").isSome ∧ (docGet demoDoc "category").isSome ∧
    conflictWith [] demoDoc = false ∧
    demoDoc2.isEmpty = false ∧
    docGet demoDoc2 "id" = docGet demoDoc "id" ∧
    docGet demoDoc2 "category" = docGet demoDoc "category" ∧
    create_item demoEmptyState (some demoDoc)
      = (⟨201, .obj demoDoc⟩, { demoEmptyState with container := some [demoDoc] }) ∧
    create_item { demoEmptyState with container := some [demoDoc] } (some demoDoc2)
      = (⟨409, errBody "Item already exists"⟩,
         { demoEmptyState with container := some [demoDoc] }) := by
  have h5 := (C3_create_semantics demoEmptyState [] demoDoc demoDoc2 rfl).2.2.2.2
    rfl rfl rfl rfl
  exact ⟨rfl, rfl, rfl, rfl, rfl, rfl, rfl, rfl, h5.1, h5.2 rfl rfl rfl⟩

/-- C4: with the document handle ready and a nonempty body containing
`category`, `PUT /items/{id}` returns 200 (whether or not the item
existed), the returned body is the upserted item whose `id` field equals
the path id, the store of the new state is the upsert of that item (replace
if the (id, category) key exists, insert otherwise), and that stored
item — a member of the resulting store — has its `id` field equal to
the path id, overriding any `id` supplied in the body. -/
theorem C4_update_upsert (st : AppState) (docs : DocStore) (item_id : String) (data : Doc)
    (h : st.container = some docs) (hne : data.isEmpty = false)
    (hcat : (docGet data "category").isSome) :
    (update_item st item_id (some data)).1.status = 200 ∧
    (update_item st item_id (some data)).1.body = .obj (docSet data "id" (.str item_id)) ∧
    (update_item st item_id (some data)).2
      = { st with container := some (upsertDoc docs (docSet data "id" (.str item_id))) } ∧
    docGet (docSet data "id" (.str item_id)) "id" = some (.str item_id) ∧
    docSet data "id" (.str item_id) ∈ upsertDoc docs (docSet data "id" (.str item_id)) := by
  rcases Option.isSome_iff_exists.mp hcat with ⟨vc, hvc⟩
  have hu : update_item st item_id (some data)
      = (⟨200, .obj (docSet data "id" (.str item_id))⟩,
         { st with container := some (upsertDoc docs (docSet data "id" (.str item_id))) }) := by
    simp [update_item, h, hne, hvc]
  exact ⟨by rw [hu], by rw [hu], by rw [hu],
         docGet_docSet_self data "id" _, mem_upsertDoc _ _⟩

/-- Witness for C4: updating `/items/z` with a body whose own id is "a"
against the demo store succeeds with the stored id forced to "z". -/
theorem C4_witness :
    demoState.container = some [demoDoc] ∧ demoDoc2.isEmpty = false ∧
    (docGet demoDoc2 "category").isSome ∧
    (update_item demoState "z" (some demoDoc2)).1.status = 200 ∧
    docGet (docSet demoDoc2 "id" (.str "z")) "id" = some (.str "z") :=
  ⟨rfl, rfl, rfl,
   (C4_update_upsert demoState [demoDoc] "z" demoDoc2 rfl rfl rfl).1,
   (C4_update_upsert demoState [demoDoc] "z" demoDoc2 rfl rfl rfl).2.2.2.1⟩

/-- C5: with the document handle ready, `GET /items/{id}` and
`DELETE /items/{id}` return 400 when the `category` query parameter is
absent (or empty, hence falsy) — a caller error distinct from
not-found; when no stored item has that (id, category) both return 404
with the state untouched; otherwise get returns the item with 200, and
delete returns 200 with only a confirmation message (no item payload),
removes the item, and a second delete of the same (id, category) then
returns 404. -/
theorem C5_get_delete (st : AppState) (docs : DocStore) (item_id c : String)
    (h : st.container = some docs) :
    get_item st item_id none = ⟨400, errBody "category query parameter is required"⟩ ∧
    get_item st item_id (some "") = ⟨400, errBody "category query parameter is required"⟩ ∧
    delete_item st item_id none = (⟨400, errBody "category query parameter is required"⟩, st) ∧
    delete_item st item_id (some "")
      = (⟨400, errBody "category query parameter is required"⟩, st) ∧
    (c.isEmpty = false →
      (docs.find? (fun d => strKeyMatches d item_id c) = none →
        get_item st item_id (some c) = ⟨404, errBody "Item not found"⟩ ∧
        delete_item st item_id (some c) = (⟨404, errBody "Item not found"⟩, st)) ∧
      (∀ d, docs.find? (fun d => strKeyMatches d item_id c) = some d →
        get_item st item_id (some c) = ⟨200, .obj d⟩) ∧
      (docs.any (fun d => strKeyMatches d item_id c) = true →
        delete_item st item_id (some c)
          = (⟨200, .obj [("message", .str "Item deleted successfully")]⟩,
             { st with container := some (docs.filter (fun d => !(strKeyMatches d item_id c))) }) ∧
        (delete_item { st with container := some (docs.filter (fun d => !(strKeyMatches d item_id c))) } item_id (some c)).1
          = ⟨404, errBody "Item not found"⟩)) := by
  refine ⟨by simp [get_item, h, strFalsy], by simp only [get_item, h]; rfl,
          by simp [delete_item, h, strFalsy], by simp only [delete_item, h]; rfl, ?_⟩
  intro hc
  refine ⟨?_, ?_, ?_⟩
  · intro hfind
    have hany : docs.any (fun d => strKeyMatches d item_id c) = false := by
      rw [List.any_eq_false]
      intro d hd hm
      exact (List.find?_eq_none.mp hfind d hd) hm
    exact ⟨by simp [get_item, h, strFalsy, hc, hfind],
           by simp [delete_item, h, strFalsy, hc, hany]⟩
  · intro d hfind
    simp [get_item, h, strFalsy, hc, hfind]
  · intro hany
    have h2 : ({ st with container := some (docs.filter (fun d => !(strKeyMatches d item_id c))) } : AppState).container
        = some (docs.filter (fun d => !(strKeyMatches d item_id c))) := rfl
    exact ⟨by simp [delete_item, h, strFalsy, hc, hany],
           by simp [delete_item, h2, strFalsy, hc, filter_not_any]⟩

/-- Witness for C5: in the demo store, a missing category yields 400,
deleting the stored item succeeds, and deleting it again yields 404. -/
theorem C5_witness :
    demoState.container = some [demoDoc] ∧
    ("c" : String).isEmpty = false ∧
    [demoDoc].any (fun d => strKeyMatches d "a" "c") = true ∧
    get_item demoState "a" none = ⟨400, errBody "category query parameter is required"⟩ ∧
    (delete_item demoState "a" (some "c")).1
      = ⟨200, .obj [("message", .str "Item deleted successfully")]⟩ ∧
    (delete_item (delete_item demoState "a" (some "c")).2 "a" (some "c")).1
      = ⟨404, errBody "Item not found"⟩ := by
  have hmain := C5_get_delete demoState [demoDoc] "a" "c" rfl
  have hdel := (hmain.2.2.2.2 rfl).2.2 rfl
  refine ⟨rfl, rfl, rfl, hmain.1, by rw [hdel.1], ?_⟩
  rw [hdel.1]
  exact hdel.2

/-- C9: an item successfully created via `POST /items` with string id
and nonempty string category is returned, equal to the created body, by
an immediately subsequent `GET /items/{id}?category=C` on the resulting
state. -/
theorem C9_create_get_round_trip (st : AppState) (docs : DocStore) (data : Doc)
    (i c : String) (h : st.container = some docs)
    (hne : data.isEmpty = false)
    (hid : docGet data "id" = some (.str i))
    (hcat : docGet data "category" = some (.str c))
    (hcne : c.isEmpty = false)
    (hconf : conflictWith docs data = false) :
    (create_item st (some data)).1 = ⟨201, .obj data⟩ ∧
    get_item (create_item st (some data)).2 i (some c) = ⟨200, .obj data⟩ := by
  have hcr : create_item st (some data)
      = (⟨201, .obj data⟩, { st with container := some (docs ++ [data]) }) := by
    simp [create_item_ready h, hne, hid, hcat, hconf]
  refine ⟨by rw [hcr], ?_⟩
  rw [hcr]
  have hnone : docs.find? (fun d => strKeyMatches d i c) = none := by
    rw [List.find?_eq_none]
    intro d hd hm
    apply List.any_eq_false.mp hconf d hd
    show (docGet d "id" == docGet data "id"
        && docGet d "category" == docGet data "category") = true
    rw [hid, hcat]
    exact hm
  have hself : strKeyMatches data i c = true := by
    unfold strKeyMatches
    rw [hid, hcat, optBeq_refl, optBeq_refl]
    rfl
  have h2 : ({ st with container := some (docs ++ [data]) } : AppState).container
      = some (docs ++ [data]) := rfl
  simp [get_item, h2, strFalsy, hcne, List.find?_append, hnone, hself]

/-- Witness for C9: creating `demoDoc` into the empty demo store, then
getting `/items/a?category=c`, returns the created item. -/
theorem C9_witness :
    demoEmptyState.container = some [] ∧ demoDoc.isEmpty = false ∧
    docGet demoDoc "id" = some (.str "a") ∧
    docGet demoDoc "category" = some (.str "c") ∧
    ("c" : String).isEmpty = false ∧ conflictWith [] demoDoc = false ∧
    (create_item demoEmptyState (some demoDoc)).1 = ⟨201, .obj demoDoc⟩ ∧
    get_item (create_item demoEmptyState (some demoDoc)).2 "a" (some "c")
      = ⟨200, .obj demoDoc⟩ :=
  ⟨rfl, rfl, rfl, rfl, rfl, rfl,
   (C9_create_get_round_trip demoEmptyState [] demoDoc "a" "c" rfl rfl rfl rfl rfl rfl).1,
   (C9_create_get_round_trip demoEmptyState [] demoDoc "a" "c" rfl rfl rfl rfl rfl rfl).2⟩

theorem sameButValues_map_eq {kv kv2 : SecretStore} (h : SameButValues kv kv2) :
    kv.map secretListEntry = kv2.map secretListEntry := by
  induction h with
  | nil => rfl
  | @cons a b l1 l2 hst htl ih =>
      simp only [List.map_cons, ih]
      have he : secretListEntry a = secretListEntry b := by
        unfold secretListEntry
        rw [hst.1, hst.2.1]
      rw [he]

/-- C6: a successful `GET /secrets` listing exposes, for each secret,
exactly its name and enabled flag — never a `value` field — plus a
count, so any two vault states that differ only in secret values
produce identical listings; a successful `GET /secrets/{name}` response
does include the `value` field. -/
theorem C6_listing_hides_values (st st2 : AppState) (kv kv2 : SecretStore)
    (name : String) (s : Secret)
    (h : st.keyvault_client = some kv) (h2 : st2.keyvault_client = some kv2) :
    (SameButValues kv kv2 → list_secrets st = list_secrets st2) ∧
    (list_secrets st).field "secrets" = some (.arr (kv.map secretListEntry)) ∧
    (∀ v ∈ kv.map secretListEntry, ∃ d, v = .obj d ∧ docGet d "value" = none ∧
       ∃ t, t ∈ kv ∧ d = [("name", .str t.name), ("enabled", .bool t.enabled)]) ∧
    (list_secrets st).field "count" = some (.num (kv.length : Int)) ∧
    (kv.find? (fun t => t.name == name) = some s →
       (get_secret st name).field "value" = some s.value) := by
  refine ⟨?_, ?_, ?_, ?_, ?_⟩
  · intro hrel
    have hmap := sameButValues_map_eq hrel
    have hlen : kv.length = kv2.length := List.Forall₂.length_eq hrel
    simp [list_secrets, h, h2, hmap, hlen]
  · simp only [list_secrets, h, Response.field]
    rfl
  · intro v hv
    rcases List.mem_map.mp hv with ⟨t, ht, hvt⟩
    exact ⟨[("name", .str t.name), ("enabled", .bool t.enabled)], hvt.symm, rfl, t, ht, rfl⟩
  · simp only [list_secrets, h, Response.field]
    rfl
  · intro hfind
    have hg : get_secret st name
        = ⟨200, .obj [("name", .str s.name), ("value", s.value), ("enabled", .bool s.enabled),
                      ("created_on", renderTimestamp s.created_on),
                      ("updated_on", renderTimestamp s.updated_on)]⟩ := by
      simp [get_secret, h, kvGetSecret, hfind]
    rw [hg]
    rfl

/-- Witness for C6: the demo vault and the same vault with a changed
secret value produce identical listings, while `GET /secrets/s1`
exposes the value. -/
theorem C6_witness :
    demoState.keyvault_client = some [demoSecret] ∧
    demoState2.keyvault_client = some [demoSecret2] ∧
    SameButValues [demoSecret] [demoSecret2] ∧
    [demoSecret].find? (fun t => t.name == "s1") = some demoSecret ∧
    list_secrets demoState = list_secrets demoState2 ∧
    (get_secret demoState "s1").field "value" = some demoSecret.value := by
  have hrel : SameButValues [demoSecret] [demoSecret2] :=
    List.Forall₂.cons ⟨rfl, rfl, rfl, rfl⟩ List.Forall₂.nil
  have hmain := C6_listing_hides_values demoState demoState2 [demoSecret] [demoSecret2]
    "s1" demoSecret rfl rfl
  exact ⟨rfl, rfl, hrel, rfl, hmain.1 hrel, hmain.2.2.2.2 rfl⟩

/-- C7: with the secret handle ready, `GET /secrets/{name}` on an
existing secret returns 200 with its name, value, enabled
flag, and `created_on`/`updated_on` rendered as the ISO string when set
and JSON null when never set; when the secret does not exist the
response is 500 carrying the not-found message of the backend — never
404. -/
theorem C7_get_secret_shape (st : AppState) (kv : SecretStore) (name : String) (s : Secret)
    (h : st.keyvault_client = some kv) :
    (kv.find? (fun t => t.name == name) = some s →
      get_secret st name
        = ⟨200, .obj [("name", .str s.name), ("value", s.value), ("enabled", .bool s.enabled),
                      ("created_on", renderTimestamp s.created_on),
                      ("updated_on", renderTimestamp s.updated_on)]⟩ ∧
      (∀ t, s.created_on = some t → (get_secret st name).field "created_on" = some (.str t)) ∧
      (s.created_on = none → (get_secret st name).field "created_on" = some .null) ∧
      (∀ t, s.updated_on = some t → (get_secret st name).field "updated_on" = some (.str t)) ∧
      (s.updated_on = none → (get_secret st name).field "updated_on" = some .null)) ∧
    (kv.find? (fun t => t.name == name) = none →
      get_secret st name = ⟨500, errBody (secretNotFoundMessage name)⟩ ∧
      (get_secret st name).status ≠ 404) := by
  constructor
  · intro hfind
    have hg : get_secret st name
        = ⟨200, .obj [("name", .str s.name), ("value", s.value), ("enabled", .bool s.enabled),
                      ("created_on", renderTimestamp s.created_on),
                      ("updated_on", renderTimestamp s.updated_on)]⟩ := by
      simp [get_secret, h, kvGetSecret, hfind]
    refine ⟨hg, ?_, ?_, ?_, ?_⟩
    · intro t hct
      rw [hg]
      show some (renderTimestamp s.created_on) = some (.str t)
      rw [hct]
      rfl
    · intro hct
      rw [hg]
      show some (renderTimestamp s.created_on) = some .null
      rw [hct]
      rfl
    · intro t hut
      rw [hg]
      show some (renderTimestamp s.updated_on) = some (.str t)
      rw [hut]
      rfl
    · intro hut
      rw [hg]
      show some (renderTimestamp s.updated_on) = some .null
      rw [hut]
      rfl
  · intro hfind
    have hg : get_secret st name = ⟨500, errBody (secretNotFoundMessage name)⟩ := by
      simp [get_secret, h, kvGetSecret, hfind]
    exact ⟨hg, by rw [hg]; simp⟩

/-- Witness for C7: `GET /secrets/s1` on the demo vault returns the full
detail with an ISO `created_on` and null `updated_on`; `GET /secrets/nope`
returns 500 with the backend message, not 404. -/
theorem C7_witness :
    demoState.keyvault_client = some [demoSecret] ∧
    [demoSecret].find? (fun t => t.name == "s1") = some demoSecret ∧
    demoSecret.created_on = some "2024-01-01T00:00:00+00:00" ∧
    demoSecret.updated_on = none ∧
    [demoSecret].find? (fun t => t.name == "nope") = none ∧
    (get_secret demoState "s1").field "created_on"
      = some (.str "2024-01-01T00:00:00+00:00") ∧
    (get_secret demoState "s1").field "updated_on" = some .null ∧
    get_secret demoState "nope" = ⟨500, errBody (secretNotFoundMessage "nope")⟩ ∧
    (get_secret demoState "nope").status ≠ 404 := by
  have hmain := C7_get_secret_shape demoState [demoSecret] "s1" demoSecret rfl
  have hmiss := (C7_get_secret_shape demoState [demoSecret] "nope" demoSecret rfl).2 rfl
  have hok := hmain.1 rfl
  exact ⟨rfl, rfl, rfl, rfl, rfl, hok.2.1 _ rfl, hok.2.2.2.2 rfl, hmiss.1, hmiss.2⟩

theorem createDatabase_mem (acct : CosmosAccount) (dbId : String) :
    ∃ db ∈ (createDatabaseIfNotExists acct dbId).databases, db.id = dbId := by
  unfold createDatabaseIfNotExists
  by_cases hany : acct.databases.any (fun d => d.id == dbId) = true
  · rw [if_pos hany]
    rcases List.any_eq_true.mp hany with ⟨db, hdb, hid⟩
    exact ⟨db, hdb, by simpa using hid⟩
  · rw [if_neg hany]
    exact ⟨⟨dbId, []⟩, List.mem_append_right _ (List.mem_singleton.mpr rfl), rfl⟩

theorem find?_map_id_pred (dbs : List CosmosDatabaseRec) (dbId : String)
    (f : CosmosDatabaseRec → CosmosDatabaseRec) (hf : ∀ d, (f d).id = d.id) :
    (dbs.map f).find? (fun d => d.id == dbId)
      = (dbs.find? (fun d => d.id == dbId)).map f := by
  induction dbs with
  | nil => rfl
  | cons d rest ih =>
      rw [List.map_cons]
      by_cases hd : (d.id == dbId) = true
      · rw [List.find?_cons_of_pos (p := fun x : CosmosDatabaseRec => x.id == dbId) _
              (show ((f d).id == dbId) = true by rw [hf d]; exact hd),
            List.find?_cons_of_pos (p := fun x : CosmosDatabaseRec => x.id == dbId) _ hd]
        rfl
      · rw [List.find?_cons_of_neg (p := fun x : CosmosDatabaseRec => x.id == dbId) _
              (show ¬ ((f d).id == dbId) = true by rw [hf d]; exact hd),
            List.find?_cons_of_neg (p := fun x : CosmosDatabaseRec => x.id == dbId) _ hd]
        exact ih

theorem findContainer_create (acct : CosmosAccount) (dbId contId pk : String) (thr : Nat)
    (db : CosmosDatabaseRec)
    (hfind : acct.databases.find? (fun d => d.id == dbId) = some db) :
    findContainer (createContainerIfNotExists acct dbId contId pk thr).1 dbId contId
      = some (createContainerIfNotExists acct dbId contId pk thr).2 := by
  unfold createContainerIfNotExists
  cases hfc : findContainer acct dbId contId with
  | some c => exact hfc
  | none =>
      have hpred := List.find?_some hfind
      have hmap : ∀ d : CosmosDatabaseRec,
          ((if d.id == dbId
            then (⟨d.id, d.containers ++ [⟨contId, pk, thr, []⟩]⟩ : CosmosDatabaseRec)
            else d)).id = d.id := by
        intro d
        by_cases hh : (d.id == dbId) = true <;> simp [hh]
      have hcont : db.containers.find? (fun c => c.id == contId) = none := by
        unfold findContainer at hfc
        rw [hfind] at hfc
        exact hfc
      unfold findContainer
      simp only
      rw [find?_map_id_pred _ _ _ hmap, hfind, Option.map_some']
      simp only [hpred, if_true]
      rw [List.find?_append, hcont]
      simp

theorem create_noop_of_found (acct : CosmosAccount) (dbId contId pk : String) (thr : Nat)
    (c : CosmosContainerRec) (hex : findContainer acct dbId contId = some c) :
    createDatabaseIfNotExists acct dbId = acct ∧
    createContainerIfNotExists acct dbId contId pk thr = (acct, c) := by
  have hdb : ∃ db, acct.databases.find? (fun d => d.id == dbId) = some db := by
    unfold findContainer at hex
    cases hf : acct.databases.find? (fun d => d.id == dbId) with
    | none => rw [hf] at hex; exact absurd hex (by simp)
    | some db => exact ⟨db, rfl⟩
  rcases hdb with ⟨db, hf⟩
  have hp := List.find?_some hf
  constructor
  · unfold createDatabaseIfNotExists
    rw [if_pos]
    exact List.any_eq_true.mpr ⟨db, List.mem_of_find?_eq_some hf, hp⟩
  · unfold createContainerIfNotExists
    rw [hex]

theorem createContainer_preserves_db (acct : CosmosAccount) (dbId contId pk : String)
    (thr : Nat) (h : ∃ db ∈ acct.databases, db.id = dbId) :
    ∃ db ∈ (createContainerIfNotExists acct dbId contId pk thr).1.databases,
      db.id = dbId := by
  unfold createContainerIfNotExists
  rcases h with ⟨db, hdb, hid⟩
  cases hfc : findContainer acct dbId contId with
  | some c => exact ⟨db, hdb, hid⟩
  | none =>
      refine ⟨_, List.mem_map.mpr ⟨db, hdb, rfl⟩, ?_⟩
      by_cases hb : (db.id == dbId) = true <;> simp [hb, hid]

/-- C8: `initialize_cosmos_client` never raises (its body is one
try/except returning failure, so the model is a total function).  With
an empty or absent endpoint it returns failure touching nothing; on any
backend error (client construction, database creation or container
creation raising) it returns failure with the container handle — the
handle every document operation gates on — still absent; on success it
returns success with all handles bound, and the target database and
container exist in the account afterwards: created with partition-key
path "/category" and throughput 400 when absent, and left exactly as
they were (idempotent no-op) when already present. -/
theorem C8_init_cosmos_client (endpoint : Option String) (dbName contName : String)
    (beh : CosmosBehavior) (acct : CosmosAccount) (st : AppState)
    (hc : st.container = none) :
    (strFalsy endpoint = true →
      init_cosmos_client endpoint dbName contName beh acct st = (st, acct, false)) ∧
    ((beh.clientOk = false ∨ beh.createDatabaseOk = false ∨ beh.createContainerOk = false) →
      (init_cosmos_client endpoint dbName contName beh acct st).2.2 = false ∧
      (init_cosmos_client endpoint dbName contName beh acct st).1.container = none) ∧
    (strFalsy endpoint = false → beh.clientOk = true → beh.createDatabaseOk = true →
      beh.createContainerOk = true →
      (init_cosmos_client endpoint dbName contName beh acct st).2.2 = true ∧
      (init_cosmos_client endpoint dbName contName beh acct st).1.cosmos_client = true ∧
      (init_cosmos_client endpoint dbName contName beh acct st).1.database = true ∧
      (init_cosmos_client endpoint dbName contName beh acct st).1.container.isSome = true ∧
      (∃ db ∈ (init_cosmos_client endpoint dbName contName beh acct st).2.1.databases,
         db.id = dbName) ∧
      (∃ c, findContainer (init_cosmos_client endpoint dbName contName beh acct st).2.1
              dbName contName = some c) ∧
      (findContainer acct dbName contName = none →
        findContainer (init_cosmos_client endpoint dbName contName beh acct st).2.1
          dbName contName = some ⟨contName, "/category", 400, []⟩) ∧
      (∀ c, findContainer acct dbName contName = some c →
        (init_cosmos_client endpoint dbName contName beh acct st).2.1 = acct ∧
        (init_cosmos_client endpoint dbName contName beh acct st).1.container
          = some c.docs)) := by
  refine ⟨?_, ?_, ?_⟩
  · intro hf
    simp [init_cosmos_client, hf]
  · intro hfail
    unfold init_cosmos_client
    rcases hfail with hb | hb | hb
    · by_cases hf : strFalsy endpoint = true <;> simp [hf, hb, hc]
    · by_cases hf : strFalsy endpoint = true
      · simp [hf, hc]
      · by_cases hcl : beh.clientOk = true <;> simp [hf, hcl, hb, hc]
    · by_cases hf : strFalsy endpoint = true
      · simp [hf, hc]
      · by_cases hcl : beh.clientOk = true
        · by_cases hdb : beh.createDatabaseOk = true <;> simp [hf, hcl, hdb, hb, hc]
        · simp [hf, hcl, hc]
  · intro hf hcl hdb hco
    have hrun : init_cosmos_client endpoint dbName contName beh acct st
        = ({ { { st with cosmos_client := true } with database := true } with
              container := some (createContainerIfNotExists
                (createDatabaseIfNotExists acct dbName) dbName contName "/category" 400).2.docs },
           (createContainerIfNotExists (createDatabaseIfNotExists acct dbName)
             dbName contName "/category" 400).1, true) := by
      simp [init_cosmos_client, hf, hcl, hdb, hco]
    rw [hrun]
    have hdbmem := createDatabase_mem acct dbName
    rcases hdbmem with ⟨db0, hdb0, hid0⟩
    have hdbfind : ∃ db, (createDatabaseIfNotExists acct dbName).databases.find?
        (fun d => d.id == dbName) = some db := by
      have hs : ((createDatabaseIfNotExists acct dbName).databases.find?
          (fun d => d.id == dbName)).isSome = true := by
        rw [List.find?_isSome]
        exact ⟨db0, hdb0, by simpa using hid0⟩
      exact Option.isSome_iff_exists.mp hs
    rcases hdbfind with ⟨db, hdbf⟩
    refine ⟨rfl, rfl, rfl, rfl,
            createContainer_preserves_db _ _ _ _ _ ⟨db0, hdb0, hid0⟩,
            ⟨_, findContainer_create _ _ _ _ _ _ hdbf⟩, ?_, ?_⟩
    · intro hnone
      have hnone1 : findContainer (createDatabaseIfNotExists acct dbName)
          dbName contName = none := by
        unfold createDatabaseIfNotExists
        by_cases hany : acct.databases.any (fun d => d.id == dbName) = true
        · rw [if_pos hany]
          exact hnone
        · rw [if_neg hany]
          have hfall : acct.databases.find? (fun d => d.id == dbName) = none := by
            rw [List.find?_eq_none]
            intro d hd hp
            exact hany (List.any_eq_true.mpr ⟨d, hd, hp⟩)
          unfold findContainer
          simp only
          rw [List.find?_append, hfall]
          simp
      have := findContainer_create (createDatabaseIfNotExists acct dbName)
        dbName contName "/category" 400 db hdbf
      rw [this]
      unfold createContainerIfNotExists
      rw [hnone1]
    · intro c hex
      have hnoop1 : createDatabaseIfNotExists acct dbName = acct :=
        (create_noop_of_found acct dbName contName "/category" 400 c hex).1
      have hnoop2 : createContainerIfNotExists acct dbName contName "/category" 400
          = (acct, c) :=
        (create_noop_of_found acct dbName contName "/category" 400 c hex).2
      rw [hnoop1, hnoop2]
      exact ⟨rfl, rfl⟩

/-- Witness for C8: from an empty account with a well-behaved backend,
initialization succeeds and creates `SampleDB`/`Items` with partition
key path "/category" and throughput 400; with a failing database step it
fails leaving the container handle absent; with an empty endpoint it
fails touching nothing. -/
theorem C8_witness :
    freshState.container = none ∧
    strFalsy (some "") = true ∧
    strFalsy (some "https://cosmos.example") = false ∧
    init_cosmos_client (some "") "SampleDB" "Items" ⟨true, true, true⟩ ⟨[]⟩ freshState
      = (freshState, ⟨[]⟩, false) ∧
    (init_cosmos_client (some "https://cosmos.example") "SampleDB" "Items"
        ⟨true, false, false⟩ ⟨[]⟩ freshState).2.2 = false ∧
    (init_cosmos_client (some "https://cosmos.example") "SampleDB" "Items"
        ⟨true, false, false⟩ ⟨[]⟩ freshState).1.container = none ∧
    (init_cosmos_client (some "https://cosmos.example") "SampleDB" "Items"
        ⟨true, true, true⟩ ⟨[]⟩ freshState).2.2 = true ∧
    findContainer (init_cosmos_client (some "https://cosmos.example") "SampleDB" "Items"
        ⟨true, true, true⟩ ⟨[]⟩ freshState).2.1 "SampleDB" "Items"
      = some ⟨"Items", "/category", 400, []⟩ := by
  have hempty := (C8_init_cosmos_client (some "") "SampleDB" "Items"
    ⟨true, true, true⟩ ⟨[]⟩ freshState rfl).1 rfl
  have hfail := (C8_init_cosmos_client (some "https://cosmos.example") "SampleDB" "Items"
    ⟨true, false, false⟩ ⟨[]⟩ freshState rfl).2.1 (Or.inr (Or.inl rfl))
  have hok := (C8_init_cosmos_client (some "https://cosmos.example") "SampleDB" "Items"
    ⟨true, true, true⟩ ⟨[]⟩ freshState rfl).2.2 rfl rfl rfl rfl
  exact ⟨rfl, rfl, rfl, hempty, hfail.1, hfail.2, hok.1,
         hok.2.2.2.2.2.2.1 rfl⟩

theorem init_keyvault_preserves (vaultUrl : Option String) (kok : Bool)
    (kv : SecretStore) (st : AppState) :
    (init_keyvault_client vaultUrl kok kv st).1.cosmos_client = st.cosmos_client ∧
    (init_keyvault_client vaultUrl kok kv st).1.container = st.container := by
  unfold init_keyvault_client
  by_cases hf : strFalsy vaultUrl = true
  · simp [hf]
  · by_cases hk : kok = true <;> simp [hf, hk]

theorem init_cosmos_container_needs_client (ep : Option String) (dbName contName : String)
    (beh : CosmosBehavior) (acct : CosmosAccount) :
    (init_cosmos_client ep dbName contName beh acct freshState).1.container.isSome = true →
    (init_cosmos_client ep dbName contName beh acct freshState).1.cosmos_client = true := by
  unfold init_cosmos_client
  by_cases hf : strFalsy ep = true
  · simp [hf, freshState]
  · by_cases hcl : beh.clientOk = true
    · by_cases hdb : beh.createDatabaseOk = true
      · by_cases hco : beh.createContainerOk = true <;> simp [hf, hcl, hdb, hco, freshState]
      · simp [hf, hcl, hdb, freshState]
    · simp [hf, hcl, freshState]

/-- C2 counterexample: `partialInitState` is reachable (initialization
created the Cosmos client, then `create_database_if_not_exists` raised),
health reports the document boolean `true`, yet `GET /items` — a
document operation — signals BackendUnavailable with 500.  This refutes
the claimed equivalence between the health document boolean and document
operations not signalling BackendUnavailable. -/
theorem C2_counterexample :
    ReachableAfterInit partialInitState ∧
    (health_check partialInitState).status = 200 ∧
    (health_check partialInitState).field "cosmos_connected" = some (.bool true) ∧
    (get_items partialInitState).status = 500 ∧
    ¬ (((health_check partialInitState).field "cosmos_connected" = some (.bool true))
        ↔ ¬ (get_items partialInitState).status = 500) := by
  refine ⟨⟨some "https://cosmos.example", "SampleDB", "Items", ⟨true, false, false⟩,
           ⟨[]⟩, none, true, [], rfl⟩, rfl, rfl, rfl, ?_⟩
  intro hiff
  exact (hiff.mp rfl) rfl

/-- C2 amended: `GET /health` always returns 200 with the two readiness
booleans, the document boolean reporting whether the Cosmos *client*
handle is set and the secret boolean whether the vault handle is set;
in every state reachable from import-time initialization, whenever
document operations do not signal BackendUnavailable the health
response reports the document boolean `true` — but not conversely:
the health boolean tracks `cosmos_client` while operations gate on
`container`, which can lag behind it after a partial initialization
failure (see the counterexample). -/
theorem C2_health_readiness (st : AppState) (h : ReachableAfterInit st) :
    (health_check st).status = 200 ∧
    (health_check st).field "cosmos_connected" = some (.bool st.cosmos_client) ∧
    (health_check st).field "keyvault_connected"
      = some (.bool st.keyvault_client.isSome) ∧
    ((get_items st).status ≠ 500 →
      (health_check st).field "cosmos_connected" = some (.bool true)) := by
  refine ⟨rfl, rfl, rfl, ?_⟩
  intro hne
  have hsome : st.container.isSome = true := by
    cases hcont : st.container with
    | none => exact absurd (by simp [get_items, hcont]) hne
    | some docs => rfl
  have hclient : st.cosmos_client = true := by
    rcases h with ⟨ep, dbName, contName, beh, acct, vaultUrl, kok, kv, hst⟩
    have hpres := init_keyvault_preserves vaultUrl kok kv
      (init_cosmos_client ep dbName contName beh acct freshState).1
    rw [hst] at hsome ⊢
    rw [hpres.1]
    exact init_cosmos_container_needs_client ep dbName contName beh acct
      (by rw [hpres.2] at hsome; exact hsome)
  show some (JValue.bool st.cosmos_client) = some (.bool true)
  rw [hclient]

/-- Witness for C2 (amended) at the fully initialized reachable state. -/
theorem C2_witness :
    ReachableAfterInit fullInitState ∧
    (health_check fullInitState).status = 200 ∧
    (health_check fullInitState).field "cosmos_connected"
      = some (.bool fullInitState.cosmos_client) ∧
    (health_check fullInitState).field "keyvault_connected"
      = some (.bool fullInitState.keyvault_client.isSome) ∧
    ((get_items fullInitState).status ≠ 500 →
      (health_check fullInitState).field "cosmos_connected" = some (.bool true)) := by
  have hre : ReachableAfterInit fullInitState :=
    ⟨some "https://cosmos.example", "SampleDB", "Items", ⟨true, true, true⟩,
     ⟨[]⟩, some "https://vault.example", true, [demoSecret], rfl⟩
  have hmain := C2_health_readiness fullInitState hre
  exact ⟨hre, hmain.1, hmain.2.1, hmain.2.2.1, hmain.2.2.2⟩

end ACAApp
